import Mathlib

/-!
Shallow embedding of the Campus Connect chat relay (src/main.py, src/database.py):
the moderation gate `moderate_message`, the `ConnectionManager` registry
(`connect` / `disconnect` / `broadcast`), the per-connection websocket receive
loop `websocket_endpoint` (modelled one iteration at a time by `sessionStep`,
with the surrounding `try/except WebSocketDisconnect/finally` made explicit),
and the `/search` endpoint's `ilike`-based query.

Machine conventions: websocket handles are natural numbers; the classifier
pipeline is a parameter `String → SentimentResult` with a rational confidence
score; fallible effects (a send on a channel, the database commit) are driven
by explicit oracles (`sendOk`, `dbOk`); a Python exception that escapes the
`while` loop is the `crashed` outcome, a caught `WebSocketDisconnect` is the
`disconnected` outcome.
-/

namespace CampusConnect

/-- Python `str.lower` restricted to the ASCII range, on the character list of
a string (the denylist entries are ASCII). -/
def pyLower (l : List Char) : List Char := l.map Char.toLower

/-- Python `needle in haystack` when `needle` starts at the head (helper for
`hasSub`). -/
def leadsWith : List Char → List Char → Bool
  | [], _ => true
  | _ :: _, [] => false
  | a :: as, b :: bs => a == b && leadsWith as bs

/-- Python's substring containment test `needle in haystack`. -/
def hasSub (needle : List Char) : List Char → Bool
  | [] => leadsWith needle []
  | c :: cs => leadsWith needle (c :: cs) || hasSub needle cs

/-- Result of the sentiment pipeline: `{"label": ..., "score": ...}`. -/
structure SentimentResult where
  label : String
  score : ℚ
deriving DecidableEq

/-- The fixed denylist `banned_words` of `moderate_message`. -/
def banned_words : List String := ["spam", "scam", "advertisement"]

/-- `moderate_message` from src/main.py, with the sentiment pipeline injected
as a parameter. Returns `true` when the message is flagged (Reject), `false`
when it is allowed. The denylist scan runs on the lowercased content; the
pipeline, when reached, receives the original content, and flags only a
NEGATIVE label with score strictly above 0.95. -/
def moderate_message (pipeline : String → SentimentResult) (content : String) : Bool :=
  let lower_content := pyLower content.data
  if banned_words.any (fun w => hasSub w.data lower_content) then
    true
  else
    let sentiment := pipeline content
    if sentiment.label == "NEGATIVE" && decide (sentiment.score > mkRat 19 20) then
      true
    else
      false

/-- The denylist pre-filter of `moderate_message` in isolation: does any
banned word occur in the lowercased content? -/
def denyHit (content : String) : Bool :=
  banned_words.any (fun w => hasSub w.data (pyLower content.data))

/-- A websocket handle. -/
abbrev Conn := ℕ

/-- `ConnectionManager.connect`: `self.active_connections.append(websocket)`
(the channel `accept` is a transport effect outside the registry state). -/
def connect (active_connections : List Conn) (websocket : Conn) : List Conn :=
  active_connections ++ [websocket]

/-- `ConnectionManager.disconnect`: remove the first occurrence if present,
no-op otherwise (Python `if websocket in l: l.remove(websocket)`). -/
def disconnect (active_connections : List Conn) (websocket : Conn) : List Conn :=
  if websocket ∈ active_connections then active_connections.erase websocket
  else active_connections

/-- `ConnectionManager.broadcast`: send to each registered connection in list
order. `sendOk` says whether `send_json` on a given connection succeeds; the
first failing send raises, aborting the loop. Returns the connections that
received the message and `some c` when the send to `c` raised (`none` when
the loop completed). The registry itself is not touched. -/
def broadcast (sendOk : Conn → Bool) : List Conn → List Conn × Option Conn
  | [] => ([], none)
  | c :: rest =>
    if sendOk c then
      let r := broadcast sendOk rest
      (c :: r.1, r.2)
    else
      ([], some c)

/-- The `message_entry` dict built in the websocket loop (also the wire format
of a broadcast message). -/
structure Entry where
  sender : String
  content : String
  timestamp : String
deriving DecidableEq

/-- A row of the `messages` table (src/database.py `Message`). -/
structure StoredMsg where
  id : ℕ
  sender : String
  content : String
  timestamp : String
deriving DecidableEq

/-- `db.add` + `db.commit` on the messages table: append a row with the next
auto-increment identifier. -/
def dbAppend (db : List StoredMsg) (sender content ts : String) : List StoredMsg :=
  db ++ [⟨db.length + 1, sender, content, ts⟩]

/-- SQL `LIKE` pattern matching (case already folded by the caller): `%`
matches any sequence, `_` matches any single character, any other pattern
character matches itself. -/
def likeMatch : List Char → List Char → Bool
  | [], t => t.isEmpty
  | p :: ps, t =>
    if p == '%' then
      t.tails.any (fun s => likeMatch ps s)
    else
      match t with
      | [] => false
      | c :: ts => (if p == '_' then true else p == c) && likeMatch ps ts

/-- The row set of `search_messages`:
`db.query(Message).filter(Message.content.ilike(f"%{keyword}%")).all()` —
`ilike` lowercases both sides and applies `LIKE` with the keyword spliced
into the pattern verbatim. Rows come back in storage order. -/
def search_rows (keyword : String) (db : List StoredMsg) : List StoredMsg :=
  db.filter (fun m =>
    likeMatch (pyLower ('%' :: (keyword.data ++ ['%']))) (pyLower m.content.data))

/-- `search_messages`: the rows formatted on the wire schema. -/
def search_messages (keyword : String) (db : List StoredMsg) : List Entry :=
  (search_rows keyword db).map (fun m => ⟨m.sender, m.content, m.timestamp ++ "Z"⟩)

/-- Case-insensitive substring containment as the spec words it: the claimed
characterisation of which stored messages `search` returns. -/
def specContains (keyword content : String) : Bool :=
  hasSub (pyLower keyword.data) (pyLower content.data)

/-- Outcome of `await websocket.receive_json()`. -/
inductive RecvResult where
  /-- The channel closed: `WebSocketDisconnect` is raised. -/
  | disconnected
  /-- The frame is not valid JSON: a JSON decode error is raised. -/
  | badJson
  /-- A JSON object arrived, as a key/value list. -/
  | json (fields : List (String × String))
deriving DecidableEq

/-- Python `data.get(key)`: the first binding of the key, if any. -/
def getField (fields : List (String × String)) (k : String) : Option String :=
  (fields.find? (fun p => p.1 == k)).map Prod.snd

/-- The shared state the loop touches: the registry list, the module-level
`chat_messages` list, and the messages table. -/
structure ServerState where
  active : List Conn
  chat_messages : List Entry
  db : List StoredMsg
deriving DecidableEq

/-- How one loop iteration ends. -/
inductive Outcome where
  /-- Control returns to the top of the `while True` loop. -/
  | continueLoop
  /-- `WebSocketDisconnect` was caught: `manager.disconnect` ran and the
  handler returned. -/
  | disconnected
  /-- Some other exception escaped the loop: the handler unwound through
  `finally` without touching the registry. -/
  | crashed
deriving DecidableEq

/-- A message written to one connection. -/
inductive OutMsg where
  | chat (e : Entry)
  | errorMsg (s : String)
deriving DecidableEq

/-- Everything one iteration of the loop did. -/
structure StepResult where
  state : ServerState
  /-- The `send_json` calls that completed, in order, with their recipients. -/
  sends : List (Conn × OutMsg)
  outcome : Outcome
  /-- Whether `db.close()` ran (the `finally` block — exactly on the paths
  that leave the handler). -/
  dbClosed : Bool
deriving DecidableEq

/-- One iteration of the `while True` loop of `websocket_endpoint`, together
with the surrounding `except WebSocketDisconnect` / `finally` handling when
the iteration raises. `me` is this session's websocket, `sender` the
authenticated user's full name, `ts` the iteration's `utcnow` isoformat
value, `dbOk` whether the commit succeeds, `sendOk` whether `send_json` to a
given connection succeeds. -/
def sessionStep (pipeline : String → SentimentResult) (sendOk : Conn → Bool)
    (dbOk : Bool) (me : Conn) (sender ts : String)
    (recv : RecvResult) (s : ServerState) : StepResult :=
  match recv with
  | .disconnected =>
    ⟨⟨disconnect s.active me, s.chat_messages, s.db⟩, [], .disconnected, true⟩
  | .badJson =>
    ⟨s, [], .crashed, true⟩
  | .json fields =>
    let content := (getField fields "content").getD ""
    if moderate_message pipeline content then
      if sendOk me then
        ⟨s, [(me, .errorMsg "Message flagged as inappropriate.")], .continueLoop, false⟩
      else
        ⟨s, [], .crashed, true⟩
    else
      let entry : Entry := ⟨sender, content, ts ++ "Z"⟩
      let chat' := s.chat_messages ++ [entry]
      if dbOk then
        let db' := dbAppend s.db sender content ts
        let r := broadcast sendOk s.active
        match r.2 with
        | none =>
          ⟨⟨s.active, chat', db'⟩, r.1.map (fun c => (c, .chat entry)), .continueLoop, false⟩
        | some _ =>
          ⟨⟨s.active, chat', db'⟩, r.1.map (fun c => (c, .chat entry)), .crashed, true⟩
      else
        ⟨⟨s.active, chat', s.db⟩, [], .crashed, true⟩

/-- Keyword characters that the `LIKE` pattern treats literally: no `%` and
no `_` anywhere. -/
def noWild (l : List Char) : Bool := l.all (fun c => !(c == '%' || c == '_'))

/-! ### Helper lemmas -/

theorem broadcast_split (sendOk : Conn → Bool) (pre : List Conn) (b : Conn)
    (post : List Conn) (hpre : ∀ c ∈ pre, sendOk c = true) (hb : sendOk b = false) :
    broadcast sendOk (pre ++ b :: post) = (pre, some b) := by
  induction pre with
  | nil => simp [broadcast, hb]
  | cons c cs ih =>
    have hc : sendOk c = true := hpre c (by simp)
    simp [broadcast, hc, ih (fun x hx => hpre x (by simp [hx]))]

theorem likeMatch_nil (t : List Char) : likeMatch [] t = t.isEmpty := rfl

theorem tails_any_isEmpty (t : List Char) :
    (t.tails.any fun s => s.isEmpty) = true := by
  induction t with
  | nil => rfl
  | cons c cs ih => simp [List.tails, ih]

theorem likeMatch_append_pct (k : List Char) (hk : noWild k = true) :
    ∀ t : List Char, likeMatch (k ++ ['%']) t = leadsWith k t := by
  induction k with
  | nil =>
    intro t
    simp only [List.nil_append, likeMatch, likeMatch_nil]
    simp [leadsWith, tails_any_isEmpty t]
  | cons p ps ih =>
    intro t
    simp only [noWild, List.all_cons, Bool.and_eq_true, Bool.not_eq_true',
      Bool.or_eq_false_iff] at hk
    obtain ⟨⟨hp1, hp2⟩, hps⟩ := hk
    cases t with
    | nil => simp [likeMatch, leadsWith, hp1]
    | cons c ts =>
      simp [likeMatch, leadsWith, hp1, hp2, ih hps ts]

theorem hasSub_eq_tails (k t : List Char) :
    hasSub k t = (t.tails.any fun s => leadsWith k s) := by
  induction t with
  | nil => simp [hasSub, List.tails]
  | cons c cs ih => simp [hasSub, List.tails, ih]

theorem likeMatch_pct (k : List Char) (hk : noWild k = true) (t : List Char) :
    likeMatch ('%' :: (k ++ ['%'])) t = hasSub k t := by
  simp only [likeMatch, hasSub_eq_tails]
  simp only [likeMatch_append_pct k hk]
  simp

theorem ofNat_toNat_cases (m : ℕ) :
    (Char.ofNat m).toNat = m ∨ (Char.ofNat m).toNat = 0 := by
  unfold Char.ofNat
  split
  · left; rfl
  · right; rfl

theorem toLower_noWild (c : Char) (h : (!(c == '%' || c == '_')) = true) :
    (!(Char.toLower c == '%' || Char.toLower c == '_')) = true := by
  simp only [Bool.not_eq_true', Bool.or_eq_false_iff, beq_eq_false_iff_ne] at h ⊢
  obtain ⟨h1, h2⟩ := h
  unfold Char.toLower
  by_cases hin : c.toNat ≥ 65 ∧ c.toNat ≤ 90
  · simp only [hin, and_self, if_true]
    constructor <;> intro heq <;>
      {
        have hv := congrArg Char.toNat heq
        rcases ofNat_toNat_cases (c.toNat + 32) with hc | hc
        all_goals rw [hc] at hv
        all_goals revert hv
        all_goals simp
        all_goals omega
      }
  · simp only [hin, if_false]
    exact ⟨h1, h2⟩

theorem pyLower_noWild (l : List Char) (h : noWild l = true) :
    noWild (pyLower l) = true := by
  induction l with
  | nil => rfl
  | cons c cs ih =>
    simp only [noWild, List.all_cons, Bool.and_eq_true] at h
    simp only [pyLower, List.map_cons, noWild, List.all_cons, Bool.and_eq_true]
    exact ⟨toLower_noWild c h.1, ih h.2⟩

theorem pyLower_pattern (k : List Char) :
    pyLower ('%' :: (k ++ ['%'])) = '%' :: (pyLower k ++ ['%']) := by
  simp [pyLower, show Char.toLower '%' = '%' from by decide]

theorem search_pred_eq (keyword : String) (hw : noWild keyword.data = true)
    (content : String) :
    likeMatch (pyLower ('%' :: (keyword.data ++ ['%']))) (pyLower content.data)
      = specContains keyword content := by
  rw [pyLower_pattern, likeMatch_pct _ (pyLower_noWild _ hw)]
  rfl

theorem sessionStep_disc (pipeline : String → SentimentResult) (sendOk : Conn → Bool)
    (dbOk : Bool) (me : Conn) (sender ts : String) (s : ServerState) :
    sessionStep pipeline sendOk dbOk me sender ts .disconnected s
      = ⟨⟨disconnect s.active me, s.chat_messages, s.db⟩, [], .disconnected, true⟩ := rfl

theorem sessionStep_badJson (pipeline : String → SentimentResult) (sendOk : Conn → Bool)
    (dbOk : Bool) (me : Conn) (sender ts : String) (s : ServerState) :
    sessionStep pipeline sendOk dbOk me sender ts .badJson s
      = ⟨s, [], .crashed, true⟩ := rfl

theorem sessionStep_reject (pipeline : String → SentimentResult) (sendOk : Conn → Bool)
    (dbOk : Bool) (me : Conn) (sender ts : String)
    (fields : List (String × String)) (s : ServerState)
    (hm : moderate_message pipeline ((getField fields "content").getD "") = true)
    (hs : sendOk me = true) :
    sessionStep pipeline sendOk dbOk me sender ts (.json fields) s
      = ⟨s, [(me, .errorMsg "Message flagged as inappropriate.")], .continueLoop, false⟩ := by
  simp [sessionStep, hm, hs]

theorem sessionStep_rejectSendFail (pipeline : String → SentimentResult)
    (sendOk : Conn → Bool) (dbOk : Bool) (me : Conn) (sender ts : String)
    (fields : List (String × String)) (s : ServerState)
    (hm : moderate_message pipeline ((getField fields "content").getD "") = true)
    (hs : sendOk me = false) :
    sessionStep pipeline sendOk dbOk me sender ts (.json fields) s
      = ⟨s, [], .crashed, true⟩ := by
  simp [sessionStep, hm, hs]

theorem sessionStep_dbFail (pipeline : String → SentimentResult) (sendOk : Conn → Bool)
    (me : Conn) (sender ts : String) (fields : List (String × String)) (s : ServerState)
    (hm : moderate_message pipeline ((getField fields "content").getD "") = false) :
    sessionStep pipeline sendOk false me sender ts (.json fields) s
      = ⟨⟨s.active,
          s.chat_messages ++ [⟨sender, (getField fields "content").getD "", ts ++ "Z"⟩],
          s.db⟩, [], .crashed, true⟩ := by
  simp [sessionStep, hm]

theorem sessionStep_acceptNone (pipeline : String → SentimentResult)
    (sendOk : Conn → Bool) (me : Conn) (sender ts : String)
    (fields : List (String × String)) (s : ServerState)
    (hm : moderate_message pipeline ((getField fields "content").getD "") = false)
    (hbc : (broadcast sendOk s.active).2 = none) :
    sessionStep pipeline sendOk true me sender ts (.json fields) s
      = ⟨⟨s.active,
          s.chat_messages ++ [⟨sender, (getField fields "content").getD "", ts ++ "Z"⟩],
          dbAppend s.db sender ((getField fields "content").getD "") ts⟩,
         (broadcast sendOk s.active).1.map
           (fun c => (c, .chat ⟨sender, (getField fields "content").getD "", ts ++ "Z"⟩)),
         .continueLoop, false⟩ := by
  simp [sessionStep, hm, hbc]

theorem sessionStep_acceptSome (pipeline : String → SentimentResult)
    (sendOk : Conn → Bool) (me : Conn) (sender ts : String)
    (fields : List (String × String)) (s : ServerState) (b : Conn)
    (hm : moderate_message pipeline ((getField fields "content").getD "") = false)
    (hbc : (broadcast sendOk s.active).2 = some b) :
    sessionStep pipeline sendOk true me sender ts (.json fields) s
      = ⟨⟨s.active,
          s.chat_messages ++ [⟨sender, (getField fields "content").getD "", ts ++ "Z"⟩],
          dbAppend s.db sender ((getField fields "content").getD "") ts⟩,
         (broadcast sendOk s.active).1.map
           (fun c => (c, .chat ⟨sender, (getField fields "content").getD "", ts ++ "Z"⟩)),
         .crashed, true⟩ := by
  simp [sessionStep, hm, hbc]

theorem sessionStep_accept_db (pipeline : String → SentimentResult)
    (sendOk : Conn → Bool) (me : Conn) (sender ts : String)
    (fields : List (String × String)) (s : ServerState)
    (hm : moderate_message pipeline ((getField fields "content").getD "") = false) :
    (sessionStep pipeline sendOk true me sender ts (.json fields) s).state.db
      = dbAppend s.db sender ((getField fields "content").getD "") ts := by
  cases hbc : (broadcast sendOk s.active).2 with
  | none => rw [sessionStep_acceptNone pipeline sendOk me sender ts fields s hm hbc]
  | some b => rw [sessionStep_acceptSome pipeline sendOk me sender ts fields s b hm hbc]

/-! ### Claims -/

/-- Claim C2 (confirmed): `moderate_message` implements the two-stage
algorithm — a denylist hit on the lowercased text yields Reject for every
possible classifier (so the classifier is not consulted), and otherwise the
verdict is Reject exactly when the classifier's label is "NEGATIVE" with
score strictly above 0.95. -/
theorem C2_moderation (pipeline : String → SentimentResult) (content : String) :
    (denyHit content = true → ∀ pipeline₂, moderate_message pipeline₂ content = true)
    ∧ (denyHit content = false →
        moderate_message pipeline content
          = ((pipeline content).label == "NEGATIVE"
              && decide ((pipeline content).score > mkRat 19 20))) := by
  constructor
  · intro h pipeline₂
    have h' : (banned_words.any fun w => hasSub w.data (pyLower content.data)) = true := h
    simp [moderate_message, h']
  · intro h
    have h' : (banned_words.any fun w => hasSub w.data (pyLower content.data)) = false := h
    simp only [moderate_message, h', Bool.false_eq_true, if_false]
    cases hb : ((pipeline content).label == "NEGATIVE"
        && decide ((pipeline content).score > mkRat 19 20)) <;> simp [hb]

/-- Witness for C2: a denylisted text is rejected whatever the classifier
says, and a clean text with a confident-positive classifier is allowed. -/
theorem C2_moderation_witness :
    moderate_message (fun _ => ⟨"NEGATIVE", 1⟩) "Buy our scam product" = true
    ∧ moderate_message (fun _ => ⟨"POSITIVE", 0⟩) "hello"
        = (("POSITIVE" == "NEGATIVE") && decide ((0 : ℚ) > mkRat 19 20)) :=
  ⟨(C2_moderation (fun _ => ⟨"NEGATIVE", 1⟩) "Buy our scam product").1 (by decide) _,
   (C2_moderation (fun _ => ⟨"POSITIVE", 0⟩) "hello").2 (by decide)⟩

/-- Claim C1 is false on the code: when the database commit fails for an
accepted message, no internal-error message is sent to the sender and the
receive loop does not continue — the exception escapes the loop. -/
theorem C1_counterexample :
    (sessionStep (fun _ => ⟨"POSITIVE", 0⟩) (fun _ => true) false 0 "A" "t"
        (.json [("content", "hello")]) ⟨[0, 1], [], []⟩).sends = []
    ∧ (sessionStep (fun _ => ⟨"POSITIVE", 0⟩) (fun _ => true) false 0 "A" "t"
        (.json [("content", "hello")]) ⟨[0, 1], [], []⟩).outcome
        ≠ Outcome.continueLoop := by
  decide

/-- Claim C1 (corrected): for an accepted message the append precedes the
broadcast, and when the append fails nothing is sent to anyone, the database
is unchanged, and the exception terminates the receive loop with the
connection still registered (no internal-error feedback is sent and the loop
does not continue); a broadcast send can only occur once the stored row is
in the database. -/
theorem C1_fail_closed (pipeline : String → SentimentResult) (sendOk : Conn → Bool)
    (me : Conn) (sender ts : String) (fields : List (String × String)) (s : ServerState)
    (hm : moderate_message pipeline ((getField fields "content").getD "") = false) :
    (sessionStep pipeline sendOk false me sender ts (.json fields) s).sends = []
    ∧ (sessionStep pipeline sendOk false me sender ts (.json fields) s).outcome
        = Outcome.crashed
    ∧ (sessionStep pipeline sendOk false me sender ts (.json fields) s).state.db = s.db
    ∧ (sessionStep pipeline sendOk false me sender ts (.json fields) s).state.active
        = s.active
    ∧ ∀ dbOk : Bool, ∀ cm ∈ (sessionStep pipeline sendOk dbOk me sender ts
          (.json fields) s).sends,
        (⟨s.db.length + 1, sender, (getField fields "content").getD "", ts⟩ : StoredMsg)
          ∈ (sessionStep pipeline sendOk dbOk me sender ts (.json fields) s).state.db := by
  rw [sessionStep_dbFail pipeline sendOk me sender ts fields s hm]
  refine ⟨rfl, rfl, rfl, rfl, ?_⟩
  intro dbOk cm hcm
  cases dbOk with
  | false =>
    rw [sessionStep_dbFail pipeline sendOk me sender ts fields s hm] at hcm
    simp at hcm
  | true =>
    rw [sessionStep_accept_db pipeline sendOk me sender ts fields s hm]
    simp [dbAppend]

/-- Witness for C1 (corrected): concrete failed commit on an accepted
message — nothing is sent. -/
theorem C1_fail_closed_witness :
    (sessionStep (fun _ => ⟨"POSITIVE", 0⟩) (fun _ => true) false 0 "A" "t"
        (.json [("content", "hello")]) ⟨[0, 1], [], []⟩).sends = [] :=
  (C1_fail_closed (fun _ => ⟨"POSITIVE", 0⟩) (fun _ => true) 0 "A" "t"
    [("content", "hello")] ⟨[0, 1], [], []⟩ (by decide)).1

/-- Claim C3 is false on the code: with registered connections `[0, 1, 2]`
and connection `1` broken, a broadcast of an accepted message delivers only
to connection `0` (connection `2` gets nothing), the broken connection stays
registered, and the fault propagates out of the loop. -/
theorem C3_counterexample :
    (sessionStep (fun _ => ⟨"POSITIVE", 0⟩) (fun c => c != 1) true 0 "A" "t"
        (.json [("content", "hi")]) ⟨[0, 1, 2], [], []⟩).sends
      = [(0, .chat ⟨"A", "hi", "tZ"⟩)]
    ∧ (sessionStep (fun _ => ⟨"POSITIVE", 0⟩) (fun c => c != 1) true 0 "A" "t"
        (.json [("content", "hi")]) ⟨[0, 1, 2], [], []⟩).outcome = Outcome.crashed
    ∧ (sessionStep (fun _ => ⟨"POSITIVE", 0⟩) (fun c => c != 1) true 0 "A" "t"
        (.json [("content", "hi")]) ⟨[0, 1, 2], [], []⟩).state.active = [0, 1, 2] := by
  decide

/-- Claim C3 (corrected): when exactly one registered connection has a broken
channel, `broadcast` delivers only to the connections preceding it in
registration order, the connections after it receive nothing, the send
failure propagates to the caller (crashing the sending session's loop), and
the broken connection is not removed from the registry. -/
theorem C3_broadcast_aborts (pipeline : String → SentimentResult)
    (sendOk : Conn → Bool) (me : Conn) (sender ts : String)
    (fields : List (String × String)) (s : ServerState)
    (pre : List Conn) (b : Conn) (post : List Conn)
    (hact : s.active = pre ++ b :: post)
    (hpre : ∀ c ∈ pre, sendOk c = true) (hb : sendOk b = false)
    (hm : moderate_message pipeline ((getField fields "content").getD "") = false) :
    (sessionStep pipeline sendOk true me sender ts (.json fields) s).sends
      = pre.map (fun c =>
          (c, OutMsg.chat ⟨sender, (getField fields "content").getD "", ts ++ "Z"⟩))
    ∧ (sessionStep pipeline sendOk true me sender ts (.json fields) s).outcome
        = Outcome.crashed
    ∧ (sessionStep pipeline sendOk true me sender ts (.json fields) s).state.active
        = pre ++ b :: post := by
  have hbr : broadcast sendOk s.active = (pre, some b) := by
    rw [hact]; exact broadcast_split sendOk pre b post hpre hb
  rw [sessionStep_acceptSome pipeline sendOk me sender ts fields s b hm (by rw [hbr])]
  exact ⟨by rw [hbr], rfl, hact⟩

/-- Witness for C3 (corrected): the concrete broken-middle-connection
broadcast crashes the sending session. -/
theorem C3_broadcast_aborts_witness :
    (sessionStep (fun _ => ⟨"POSITIVE", 0⟩) (fun c => c != 1) true 0 "A" "t"
        (.json [("content", "bye")]) ⟨[0, 1, 2], [], []⟩).outcome = Outcome.crashed :=
  (C3_broadcast_aborts (fun _ => ⟨"POSITIVE", 0⟩) (fun c => c != 1) 0 "A" "t"
    [("content", "bye")] ⟨[0, 1, 2], [], []⟩ [0] 1 [2]
    (by decide) (by decide) (by decide) (by decide)).2.1

/-- Claim C4 is false on the code: a session terminated by a malformed
payload (an exception other than `WebSocketDisconnect`) leaves its
connection in the registry. -/
theorem C4_counterexample :
    (sessionStep (fun _ => ⟨"POSITIVE", 0⟩) (fun _ => true) true 0 "A" "t" .badJson
        ⟨[0, 1], [], []⟩).outcome = Outcome.crashed
    ∧ (sessionStep (fun _ => ⟨"POSITIVE", 0⟩) (fun _ => true) true 0 "A" "t" .badJson
        ⟨[0, 1], [], []⟩).state.active = [0, 1] := by
  decide

/-- Claim C4 (corrected): only the channel-disconnect path
(`WebSocketDisconnect`) unregisters the session's connection; every other
terminating path closes the database session (the `finally` block) but
leaves the connection in the registry. -/
theorem C4_teardown (pipeline : String → SentimentResult) (sendOk : Conn → Bool)
    (dbOk : Bool) (me : Conn) (sender ts : String) (recv : RecvResult)
    (s : ServerState) :
    (recv = RecvResult.disconnected →
      sessionStep pipeline sendOk dbOk me sender ts recv s
        = ⟨⟨disconnect s.active me, s.chat_messages, s.db⟩, [], .disconnected, true⟩)
    ∧ ((sessionStep pipeline sendOk dbOk me sender ts recv s).outcome = Outcome.crashed →
        (sessionStep pipeline sendOk dbOk me sender ts recv s).state.active = s.active
        ∧ (sessionStep pipeline sendOk dbOk me sender ts recv s).dbClosed = true) := by
  constructor
  · rintro rfl
    exact sessionStep_disc pipeline sendOk dbOk me sender ts s
  · intro h
    cases recv with
    | disconnected =>
      rw [sessionStep_disc pipeline sendOk dbOk me sender ts s] at h
      simp at h
    | badJson =>
      rw [sessionStep_badJson pipeline sendOk dbOk me sender ts s]
      exact ⟨rfl, rfl⟩
    | json fields =>
      by_cases hm : moderate_message pipeline ((getField fields "content").getD "") = true
      · by_cases hs : sendOk me = true
        · rw [sessionStep_reject pipeline sendOk dbOk me sender ts fields s hm hs] at h
          simp at h
        · rw [sessionStep_rejectSendFail pipeline sendOk dbOk me sender ts fields s hm
            (by simpa using hs)]
          exact ⟨rfl, rfl⟩
      · have hm' : moderate_message pipeline ((getField fields "content").getD "")
            = false := by simpa using hm
        cases dbOk with
        | false =>
          rw [sessionStep_dbFail pipeline sendOk me sender ts fields s hm']
          exact ⟨rfl, rfl⟩
        | true =>
          cases hbc : (broadcast sendOk s.active).2 with
          | none =>
            rw [sessionStep_acceptNone pipeline sendOk me sender ts fields s hm' hbc] at h
            simp at h
          | some b =>
            rw [sessionStep_acceptSome pipeline sendOk me sender ts fields s b hm' hbc]
            exact ⟨rfl, rfl⟩

/-- Witness for C4 (corrected): crashing on a malformed payload leaves the
registry untouched with the database session closed. -/
theorem C4_teardown_witness :
    (sessionStep (fun _ => ⟨"POSITIVE", 0⟩) (fun _ => true) true 0 "A" "t" .badJson
        ⟨[0, 1], [], []⟩).state.active = [0, 1]
    ∧ (sessionStep (fun _ => ⟨"POSITIVE", 0⟩) (fun _ => true) true 0 "A" "t" .badJson
        ⟨[0, 1], [], []⟩).dbClosed = true :=
  (C4_teardown (fun _ => ⟨"POSITIVE", 0⟩) (fun _ => true) true 0 "A" "t" .badJson
    ⟨[0, 1], [], []⟩).2 (by decide)

/-- Claim C5 (confirmed): a rejected message produces exactly one feedback
send, `{error: "Message flagged as inappropriate."}`, addressed to the
sending connection only; the shared state (registry, chat_messages,
database) is untouched, and the loop continues with the sender still
connected. -/
theorem C5_reject_scoping (pipeline : String → SentimentResult) (sendOk : Conn → Bool)
    (dbOk : Bool) (me : Conn) (sender ts : String)
    (fields : List (String × String)) (s : ServerState)
    (hm : moderate_message pipeline ((getField fields "content").getD "") = true)
    (hsend : sendOk me = true) :
    sessionStep pipeline sendOk dbOk me sender ts (.json fields) s
      = ⟨s, [(me, .errorMsg "Message flagged as inappropriate.")],
         .continueLoop, false⟩ :=
  sessionStep_reject pipeline sendOk dbOk me sender ts fields s hm hsend

/-- Witness for C5: the denylisted scenario message is rejected with sender-only
feedback. -/
theorem C5_reject_scoping_witness :
    sessionStep (fun _ => ⟨"POSITIVE", 0⟩) (fun _ => true) true 0 "A" "t"
        (.json [("content", "Buy our scam product")]) ⟨[0, 1], [], []⟩
      = ⟨⟨[0, 1], [], []⟩, [(0, .errorMsg "Message flagged as inappropriate.")],
         .continueLoop, false⟩ :=
  C5_reject_scoping (fun _ => ⟨"POSITIVE", 0⟩) (fun _ => true) true 0 "A" "t"
    [("content", "Buy our scam product")] ⟨[0, 1], [], []⟩ (by decide) (by decide)

/-- Claim C6 is false on the code: the keyword is spliced into the `ilike`
pattern verbatim, so `_` (and `%`) act as wildcards — searching for `"a_c"`
returns the stored message `"abc"`, whose content does not contain `"a_c"`
as a case-insensitive substring. -/
theorem C6_counterexample :
    search_rows "a_c" [⟨1, "A", "abc", "t"⟩] = [⟨1, "A", "abc", "t"⟩]
    ∧ specContains "a_c" "abc" = false := by
  decide

/-- Claim C6 (corrected): `search` returns exactly the stored messages whose
lowercased content matches the SQL `LIKE` pattern `%keyword%`; for keywords
containing no `%` or `_` wildcard characters this is exactly case-insensitive
substring containment, and the rows come back in ascending identifier
(storage) order. -/
theorem C6_search (keyword : String) (db : List StoredMsg)
    (hw : noWild keyword.data = true)
    (hsort : db.Pairwise (fun a b => a.id < b.id)) :
    search_rows keyword db = db.filter (fun m => specContains keyword m.content)
    ∧ (search_rows keyword db).Pairwise (fun a b => a.id < b.id) := by
  constructor
  · unfold search_rows
    exact List.filter_congr (fun m _ => search_pred_eq keyword hw m.content)
  · exact hsort.sublist (List.filter_sublist _)

/-- Witness for C6 (corrected): the spec's search scenario — keyword `"ell"`
over three stored messages matches the two containing it, in order. -/
theorem C6_search_witness :
    search_rows "ell"
        [⟨1, "A", "Hello", "t"⟩, ⟨2, "B", "Bye", "t"⟩, ⟨3, "C", "YELLOW", "t"⟩]
      = List.filter (fun m => specContains "ell" m.content)
          [⟨1, "A", "Hello", "t"⟩, ⟨2, "B", "Bye", "t"⟩, ⟨3, "C", "YELLOW", "t"⟩]
    ∧ (search_rows "ell"
        [⟨1, "A", "Hello", "t"⟩, ⟨2, "B", "Bye", "t"⟩,
         ⟨3, "C", "YELLOW", "t"⟩]).Pairwise (fun a b => a.id < b.id) :=
  C6_search "ell"
    [⟨1, "A", "Hello", "t"⟩, ⟨2, "B", "Bye", "t"⟩, ⟨3, "C", "YELLOW", "t"⟩]
    (by decide) (by decide)

/-- Claim C7 is false on the code: a valid-JSON payload with no `content`
field is not treated as a protocol violation — `data.get("content", "")`
defaults to the empty string and the payload is processed (and here even
persisted and broadcast) as an ordinary message, with the connection kept
open. -/
theorem C7_counterexample :
    (sessionStep (fun _ => ⟨"POSITIVE", 0⟩) (fun _ => true) true 0 "A" "t"
        (.json [("foo", "bar")]) ⟨[0], [], []⟩).outcome = Outcome.continueLoop
    ∧ (sessionStep (fun _ => ⟨"POSITIVE", 0⟩) (fun _ => true) true 0 "A" "t"
        (.json [("foo", "bar")]) ⟨[0], [], []⟩).state.db = [⟨1, "A", "", "t"⟩] := by
  decide

/-- Claim C7 (corrected): a frame that is not valid JSON raises an unhandled
exception that terminates the session with the connection still registered
(the server, not the handler, tears the channel down); a valid-JSON payload
missing the `content` field is not a protocol violation — it is processed
exactly as a message whose content is the empty string. -/
theorem C7_malformed (pipeline : String → SentimentResult) (sendOk : Conn → Bool)
    (dbOk : Bool) (me : Conn) (sender ts : String) (s : ServerState)
    (fields : List (String × String))
    (hmiss : getField fields "content" = none) :
    sessionStep pipeline sendOk dbOk me sender ts .badJson s = ⟨s, [], .crashed, true⟩
    ∧ sessionStep pipeline sendOk dbOk me sender ts (.json fields) s
        = sessionStep pipeline sendOk dbOk me sender ts (.json [("content", "")]) s := by
  refine ⟨rfl, ?_⟩
  have hc : (getField fields "content").getD "" = "" := by rw [hmiss]; rfl
  have hc2 : (getField [("content", "")] "content").getD "" = "" := by decide
  simp only [sessionStep, hc, hc2]

/-- Witness for C7 (corrected): a payload with only a `"foo"` key behaves
exactly like an empty-content message. -/
theorem C7_malformed_witness :
    sessionStep (fun _ => ⟨"POSITIVE", 0⟩) (fun _ => true) true 0 "A" "t" .badJson
        ⟨[0], [], []⟩ = ⟨⟨[0], [], []⟩, [], .crashed, true⟩
    ∧ sessionStep (fun _ => ⟨"POSITIVE", 0⟩) (fun _ => true) true 0 "A" "t"
        (.json [("foo", "bar")]) ⟨[0], [], []⟩
      = sessionStep (fun _ => ⟨"POSITIVE", 0⟩) (fun _ => true) true 0 "A" "t"
        (.json [("content", "")]) ⟨[0], [], []⟩ :=
  C7_malformed (fun _ => ⟨"POSITIVE", 0⟩) (fun _ => true) true 0 "A" "t"
    ⟨[0], [], []⟩ [("foo", "bar")] (by decide)

/-- Claim C8 is false on the code as universally stated: on a registry state
holding the same handle twice (reachable, because `connect` appends without a
duplicate check), `disconnect` removes one occurrence per call, so calling it
twice differs from calling it once. -/
theorem C8_counterexample :
    disconnect (disconnect [5, 5] 5) 5 ≠ disconnect [5, 5] 5
    ∧ disconnect [5, 5] 5 = [5]
    ∧ disconnect (disconnect [5, 5] 5) 5 = [] := by
  decide

/-- Claim C8 (corrected): `disconnect` on an absent connection is a no-op
raising no error, and on every registry state holding the connection at most
once (all states the registry invariant intends) calling it twice leaves the
registry exactly as calling it once. -/
theorem C8_unregister (l : List Conn) (w : Conn) :
    (l.count w ≤ 1 → disconnect (disconnect l w) w = disconnect l w)
    ∧ (w ∉ l → disconnect l w = l) := by
  constructor
  · intro hc
    by_cases hm : w ∈ l
    · have h1 : disconnect l w = l.erase w := by simp [disconnect, hm]
      have hnot : w ∉ l.erase w := by
        rw [← List.count_eq_zero, List.count_erase_self]
        omega
      rw [h1]
      simp [disconnect, hnot]
    · simp [disconnect, hm]
  · intro hm
    simp [disconnect, hm]

/-- Witness for C8 (corrected): a duplicate-free registry, with a present and
an absent handle. -/
theorem C8_unregister_witness :
    disconnect (disconnect [7, 8] 7) 7 = disconnect [7, 8] 7
    ∧ disconnect [7, 8] 9 = [7, 8] :=
  ⟨(C8_unregister [7, 8] 7).1 (by decide), (C8_unregister [7, 8] 9).2 (by decide)⟩

/-- Claim C9 is false on the code: `connect` appends unconditionally — there
is no `DuplicateConnection` guard — so registering an already-present handle
succeeds and leaves it in the registry twice. -/
theorem C9_counterexample :
    connect [5] 5 = [5, 5] ∧ List.count 5 (connect [5] 5) = 2 := by
  decide

/-- Claim C9 (corrected): `connect` unconditionally appends the connection
with no duplicate check and never fails; registering a handle that is already
present makes it occur at least twice, violating the at-most-once invariant
unless callers never double-register. -/
theorem C9_register (l : List Conn) (w : Conn) (h : w ∈ l) :
    connect l w = l ++ [w] ∧ 2 ≤ (connect l w).count w := by
  refine ⟨rfl, ?_⟩
  have h1 : 0 < l.count w := List.count_pos_iff.mpr h
  have h2 : (connect l w).count w = l.count w + 1 := by simp [connect]
  omega

/-- Witness for C9 (corrected): double-registering handle 5. -/
theorem C9_register_witness :
    connect [5, 6] 5 = [5, 6] ++ [5] ∧ 2 ≤ (connect [5, 6] 5).count 5 :=
  C9_register [5, 6] 5 (by decide)

/-- Claim C10 (confirmed): for every accepted message, the formatted entry is
appended to the in-memory `chat_messages` list whatever the fate of the
database commit, and when the commit fails the database is unchanged while
the entry still sits in `chat_messages` — the in-memory mutation happens
first and is never rolled back. -/
theorem C10_chat_append (pipeline : String → SentimentResult) (sendOk : Conn → Bool)
    (dbOk : Bool) (me : Conn) (sender ts : String)
    (fields : List (String × String)) (s : ServerState)
    (hm : moderate_message pipeline ((getField fields "content").getD "") = false) :
    (sessionStep pipeline sendOk dbOk me sender ts (.json fields) s).state.chat_messages
      = s.chat_messages ++ [⟨sender, (getField fields "content").getD "", ts ++ "Z"⟩]
    ∧ (dbOk = false →
        (sessionStep pipeline sendOk dbOk me sender ts (.json fields) s).state.db
          = s.db) := by
  constructor
  · cases dbOk with
    | false => rw [sessionStep_dbFail pipeline sendOk me sender ts fields s hm]
    | true =>
      cases hbc : (broadcast sendOk s.active).2 with
      | none => rw [sessionStep_acceptNone pipeline sendOk me sender ts fields s hm hbc]
      | some b =>
        rw [sessionStep_acceptSome pipeline sendOk me sender ts fields s b hm hbc]
  · rintro rfl
    rw [sessionStep_dbFail pipeline sendOk me sender ts fields s hm]

/-- Witness for C10: a failed commit still leaves the entry in
`chat_messages` and the database untouched. -/
theorem C10_chat_append_witness :
    (sessionStep (fun _ => ⟨"POSITIVE", 0⟩) (fun _ => true) false 0 "A" "t"
        (.json [("content", "hi")]) ⟨[0], [], []⟩).state.chat_messages
      = [] ++ [⟨"A", "hi", "t" ++ "Z"⟩]
    ∧ (false = false →
        (sessionStep (fun _ => ⟨"POSITIVE", 0⟩) (fun _ => true) false 0 "A" "t"
          (.json [("content", "hi")]) ⟨[0], [], []⟩).state.db = []) :=
  C10_chat_append (fun _ => ⟨"POSITIVE", 0⟩) (fun _ => true) false 0 "A" "t"
    [("content", "hi")] ⟨[0], [], []⟩ (by decide)

end CampusConnect
